import Mathlib

/-!
Verification of `dev-tools/get-bwc-version.py`.

The script is a linear command-line procedure: parse a target path, a force
flag and a version string; create the target path if missing (`os.mkdir`,
single level only); `os.chdir` into it; if `elasticsearch-<version>` already
exists either return early (no force) or `shutil.rmtree` it (force); then
download `<base>/elasticsearch-<version>.zip` with `urllib.request.urlretrieve`,
extract it with `zipfile.ZipFile(...).extractall()` into the current directory,
and `os.remove` the archive.  The `__main__` wrapper catches only
`KeyboardInterrupt`, printing a message and falling off the end (exit 0);
every other exception escapes (traceback, exit 1).

We embed the run shallowly: the environment is a `World` describing which
paths exist beforehand and how each blocking call would turn out (success,
failure, or a delivered interrupt), and `runMain` threads an abstract
filesystem state `FS` and an event trace through the same control flow as the
script.  Events record attempted operations; effects are applied only when
the operation succeeds.
-/

namespace GetBwc

/-- Configuration produced by `parse_config` (argparse): `--path` (default
`./backwards`), `--force` (store_true, default `False`), and the required
positional `version`. -/
structure Config where
  path : String
  force : Bool
  version : String
deriving DecidableEq

/-- The blocking library calls of `main`, in program order; the environment
may deliver a `KeyboardInterrupt` during any one of them. -/
inductive Step
  | mkdirStep
  | chdirStep
  | rmtreeStep
  | downloadStep
  | extractStep
  | removeStep
deriving DecidableEq

/-- Errors that can escape `main`: a `KeyboardInterrupt`, an `OSError` from a
filesystem call (for example `os.mkdir` with a missing parent), a network
failure from `urlretrieve`, or `zipfile.BadZipFile` from a corrupt archive. -/
inductive Err
  | interrupt
  | oserror
  | networkError
  | badZipFile
deriving DecidableEq

/-- Environment oracle for one run: which paths exist before the run starts,
how each fallible call would turn out, the top-level directory names the
archive would produce under `extractall`, and the call (if any) during which
a `KeyboardInterrupt` is delivered.  `parentExists` records whether the parent
directory of the target path exists: `os.mkdir` creates a single directory
level and raises `OSError` otherwise. -/
structure World where
  pathExists : Bool
  parentExists : Bool
  versionDirExists : Bool
  archivePreExists : Bool
  downloadOk : Bool
  extractOk : Bool
  zipDirs : List String
  interrupt : Option Step
deriving DecidableEq

/-- Distinguishes a stale archive file already on disk from the one written
by `urlretrieve` during this run (`urlretrieve` overwrites). -/
inductive FileVer
  | stale
  | fresh
deriving DecidableEq

/-- Abstract filesystem state, relative to the target path: whether the
target path exists, whether `elasticsearch-<version>` exists under it, and
whether `elasticsearch-<version>.zip` is on disk (and which version of it). -/
structure FS where
  pathPresent : Bool
  versionDirPresent : Bool
  archive : Option FileVer
deriving DecidableEq

/-- Observable events of a run.  Check events are reads; `mkdir`, `rmtree`,
`extract` and `removeFile` are filesystem mutations; `download` is the single
network call (which also writes a file). -/
inductive Event
  | checkPathExists (p : String)
  | mkdir (p : String)
  | chdir (p : String)
  | checkDirExists (d : String)
  | rmtree (d : String)
  | download (u : String) (dest : String)
  | extract (f : String)
  | removeFile (f : String)
  | printMsg (m : String)
deriving DecidableEq

/-- True exactly on the network call (`urlretrieve`). -/
def Event.isNetwork : Event → Bool
  | .download _ _ => true
  | _ => false

/-- True exactly on events that mutate the filesystem (`os.mkdir`,
`shutil.rmtree`, the file written by `urlretrieve`, `extractall`,
`os.remove`). -/
def Event.isFsMutation : Event → Bool
  | .mkdir _ => true
  | .rmtree _ => true
  | .download _ _ => true
  | .extract _ => true
  | .removeFile _ => true
  | _ => false

/-- Line 47: `version_dir = 'elasticsearch-%s' % c.version`. -/
def version_dir (version : String) : String :=
  "elasticsearch-" ++ version

/-- Line 56: `filename = '%s.zip' % version_dir`. -/
def filename (version : String) : String :=
  version_dir version ++ ".zip"

/-- The hardcoded base of the download URL (line 57). -/
def base_url : String :=
  "https://download.elasticsearch.org/elasticsearch/elasticsearch/"

/-- Line 57: `url = 'https://.../elasticsearch/%s' % filename`. -/
def url (version : String) : String :=
  base_url ++ filename version

deriving instance DecidableEq for Except

/-- Result of one whole run of `main`: the value or exception out of `main`,
the events in order, and the final abstract filesystem state. -/
structure Outcome where
  result : Except Err Unit
  trace : List Event
  fs : FS
deriving DecidableEq

/-- Filesystem state before the run, as described by the world.  A version
directory or a stale archive can only pre-exist underneath a target path that
itself exists. -/
def initFS (w : World) : FS where
  pathPresent := w.pathExists
  versionDirPresent := w.pathExists && w.versionDirExists
  archive := if w.pathExists && w.archivePreExists then some FileVer.stale else none

/-- Lines 65-66: `print('Cleaning up %s' % filename); os.remove(filename)`.
On success the archive is gone and `main` returns normally. -/
def cleanupPhase (w : World) (c : Config) (fs : FS) (t : List Event) : Outcome :=
  let t1 := t ++ [Event.printMsg ("Cleaning up " ++ filename c.version),
                  Event.removeFile (filename c.version)]
  if w.interrupt = some Step.removeStep then
    ⟨Except.error Err.interrupt, t1, fs⟩
  else
    ⟨Except.ok (), t1, { fs with archive := none }⟩

/-- Lines 61-63: `print('Extracting to %s' % version_dir)`;
`zipfile.ZipFile(filename).extractall()`.  A corrupt archive raises
`BadZipFile`; on success the archive's top-level directories appear in the
current directory, so `elasticsearch-<version>` is present exactly when the
archive contains it. -/
def extractPhase (w : World) (c : Config) (fs : FS) (t : List Event) : Outcome :=
  let t1 := t ++ [Event.printMsg ("Extracting to " ++ version_dir c.version),
                  Event.extract (filename c.version)]
  if w.interrupt = some Step.extractStep then
    ⟨Except.error Err.interrupt, t1, fs⟩
  else if !w.extractOk then
    ⟨Except.error Err.badZipFile, t1, fs⟩
  else
    cleanupPhase w c
      { fs with versionDirPresent :=
          fs.versionDirPresent || w.zipDirs.contains (version_dir c.version) }
      t1

/-- Lines 58-59: `print('Downloading %s' % url)`;
`urllib.request.urlretrieve(url, filename)`.  The retrieved file replaces any
same-named file; a network failure escapes. -/
def downloadPhase (w : World) (c : Config) (fs : FS) (t : List Event) : Outcome :=
  let t1 := t ++ [Event.printMsg ("Downloading " ++ url c.version),
                  Event.download (url c.version) (filename c.version)]
  if w.interrupt = some Step.downloadStep then
    ⟨Except.error Err.interrupt, t1, fs⟩
  else if !w.downloadOk then
    ⟨Except.error Err.networkError, t1, fs⟩
  else
    extractPhase w c { fs with archive := some FileVer.fresh } t1

/-- Lines 48-54: the pre-flight existence check on `version_dir`.  If present
and force: print, `shutil.rmtree(version_dir)`, continue.  If present and not
force: print and return (success).  If absent: continue to the download. -/
def checkPhase (w : World) (c : Config) (fs : FS) (t : List Event) : Outcome :=
  let t1 := t ++ [Event.checkDirExists (version_dir c.version)]
  if fs.versionDirPresent then
    if c.force then
      let t2 := t1 ++ [Event.printMsg ("Removing old download " ++ version_dir c.version),
                       Event.rmtree (version_dir c.version)]
      if w.interrupt = some Step.rmtreeStep then
        ⟨Except.error Err.interrupt, t2, fs⟩
      else
        downloadPhase w c { fs with versionDirPresent := false } t2
    else
      ⟨Except.ok (),
       t1 ++ [Event.printMsg ("Version " ++ c.version ++ " exists at " ++ version_dir c.version)],
       fs⟩
  else
    downloadPhase w c fs t1

/-- Line 46: `os.chdir(c.path)` (the path exists by this point). -/
def chdirPhase (w : World) (c : Config) (fs : FS) (t : List Event) : Outcome :=
  let t1 := t ++ [Event.chdir c.path]
  if w.interrupt = some Step.chdirStep then
    ⟨Except.error Err.interrupt, t1, fs⟩
  else
    checkPhase w c fs t1

/-- Lines 39-66, the body of `main` after `parse_config`: the initial
`os.path.exists(c.path)` check, `os.mkdir(c.path)` when missing (raising
`OSError` when the parent directory is itself missing, since `os.mkdir`
creates only one level), then the chdir / check / download / extract /
cleanup sequence. -/
def runMain (w : World) (c : Config) : Outcome :=
  let fs0 := initFS w
  let t0 : List Event := [Event.checkPathExists c.path]
  if !w.pathExists then
    let t1 := t0 ++ [Event.printMsg ("Creating " ++ c.path), Event.mkdir c.path]
    if w.interrupt = some Step.mkdirStep then
      ⟨Except.error Err.interrupt, t1, fs0⟩
    else if !w.parentExists then
      ⟨Except.error Err.oserror, t1, fs0⟩
    else
      chdirPhase w c { fs0 with pathPresent := true } t1
  else
    chdirPhase w c fs0 t0

/-- Observable outcome of the whole process: the exit status, whether a raw
traceback was shown, and the events (prints included) in order. -/
structure ProcResult where
  exitCode : Nat
  tracebackShown : Bool
  trace : List Event
deriving DecidableEq

/-- Lines 68-72: run `main` under `try`; catch only `KeyboardInterrupt` and
print `Ctrl-C caught, exiting` (the script then falls off the end, so the
process exits 0); any other exception escapes with a traceback and Python's
exit status 1. -/
def scriptEntry (w : World) (c : Config) : ProcResult :=
  let o := runMain w c
  match o.result with
  | Except.ok _ => ⟨0, false, o.trace⟩
  | Except.error Err.interrupt =>
      ⟨0, false, o.trace ++ [Event.printMsg "Ctrl-C caught, exiting"]⟩
  | Except.error _ => ⟨1, true, o.trace⟩

/-- True when a token opens with a dash, which argparse treats as an option
rather than a positional argument. -/
def dashLeading (s : String) : Bool :=
  match s.data with
  | [] => false
  | ch :: _ => ch == '-'

/-- Lines 29-37, `parse_config`, as a recursive scan over `argv` with the
accumulated `--path` value, `--force` flag, and the positional argument seen
so far.  `--force` takes no value; `--path` consumes the next token; an
unrecognized option or a second positional is a usage error; a missing
positional at the end is a usage error (argparse: required `version`). -/
def parseArgs : List String → String → Bool → Option String → Except String Config
  | [], _, _, none => Except.error "the following arguments are required: version"
  | [], path, force, some v => Except.ok ⟨path, force, v⟩
  | a :: rest, path, force, v =>
    if a = "--force" then
      parseArgs rest path true v
    else if a = "--path" then
      match rest with
      | [] => Except.error "argument --path: expected one argument"
      | d :: rest2 => parseArgs rest2 d force v
    else if dashLeading a then
      Except.error ("unrecognized arguments: " ++ a)
    else
      match v with
      | none => parseArgs rest path force (some a)
      | some _ => Except.error ("unrecognized arguments: " ++ a)

/-- `parse_config` (lines 29-37): defaults are `./backwards` for `--path` and
`False` for `--force`; `version` is required. -/
def parse_config (argv : List String) : Except String Config :=
  parseArgs argv "./backwards" false none

/-- Claim C1: if the versioned directory already exists under the target path
and force is not set, the run performs no network call and no filesystem
mutation beyond its initial existence checks, leaves the filesystem exactly
as it found it, and the process exits successfully. -/
theorem C1_already_exists_frame (w : World) (c : Config)
    (hp : w.pathExists = true) (hv : w.versionDirExists = true)
    (hf : c.force = false) :
    (scriptEntry w c).exitCode = 0 ∧
    ((runMain w c).trace.filter (fun e => e.isNetwork || e.isFsMutation)) = [] ∧
    (runMain w c).fs = initFS w := by
  cases hi : w.interrupt with
  | none =>
      simp [scriptEntry, runMain, chdirPhase, checkPhase, initFS, hp, hv, hf, hi,
        Event.isNetwork, Event.isFsMutation]
  | some s =>
      cases s <;>
        simp [scriptEntry, runMain, chdirPhase, checkPhase, initFS, hp, hv, hf, hi,
          Event.isNetwork, Event.isFsMutation]

/-- Helper: `cleanupPhase` only appends to the trace it is given. -/
theorem cleanupPhase_trace (w : World) (c : Config) (fs : FS) (t : List Event) :
    ∃ s, (cleanupPhase w c fs t).trace = t ++ s := by
  unfold cleanupPhase
  split <;> exact ⟨_, rfl⟩

/-- Helper: `extractPhase` only appends to the trace it is given. -/
theorem extractPhase_trace (w : World) (c : Config) (fs : FS) (t : List Event) :
    ∃ s, (extractPhase w c fs t).trace = t ++ s := by
  unfold extractPhase
  split
  · exact ⟨_, rfl⟩
  split
  · exact ⟨_, rfl⟩
  · obtain ⟨s, hs⟩ := cleanupPhase_trace w c
      { fs with versionDirPresent :=
          fs.versionDirPresent || w.zipDirs.contains (version_dir c.version) }
      (t ++ [Event.printMsg ("Extracting to " ++ version_dir c.version),
             Event.extract (filename c.version)])
    exact ⟨_, by rw [hs, List.append_assoc]⟩

/-- Helper: `downloadPhase` first prints and issues the network request, then
possibly continues; so its trace is the given trace, the download events, and
a remainder. -/
theorem downloadPhase_trace (w : World) (c : Config) (fs : FS) (t : List Event) :
    ∃ s, (downloadPhase w c fs t).trace =
      t ++ [Event.printMsg ("Downloading " ++ url c.version),
            Event.download (url c.version) (filename c.version)] ++ s := by
  unfold downloadPhase
  split
  · exact ⟨[], by simp⟩
  split
  · exact ⟨[], by simp⟩
  · obtain ⟨s, hs⟩ := extractPhase_trace w c { fs with archive := some FileVer.fresh }
      (t ++ [Event.printMsg ("Downloading " ++ url c.version),
             Event.download (url c.version) (filename c.version)])
    exact ⟨s, hs⟩

/-- Helper: no phase after the initial `mkdir` branch ever changes whether the
target path exists. -/
theorem downloadPhase_pathPresent (w : World) (c : Config) (fs : FS) (t : List Event) :
    (downloadPhase w c fs t).fs.pathPresent = fs.pathPresent := by
  unfold downloadPhase extractPhase cleanupPhase
  split
  · rfl
  split
  · rfl
  split
  · rfl
  split
  · rfl
  split <;> rfl

/-- Witness for C1 at a concrete world and configuration. -/
theorem C1_already_exists_frame_witness :
    (scriptEntry ⟨true, true, true, false, true, true, [], none⟩
        ⟨"./backwards", false, "7.10.0"⟩).exitCode = 0 ∧
    ((runMain ⟨true, true, true, false, true, true, [], none⟩
        ⟨"./backwards", false, "7.10.0"⟩).trace.filter
          (fun e => e.isNetwork || e.isFsMutation)) = [] ∧
    (runMain ⟨true, true, true, false, true, true, [], none⟩
        ⟨"./backwards", false, "7.10.0"⟩).fs =
      initFS ⟨true, true, true, false, true, true, [], none⟩ :=
  C1_already_exists_frame _ _ rfl rfl rfl

/-- Claim C3: when the versioned directory already exists and force is set,
the run deletes it (`shutil.rmtree`) strictly before the download is
attempted: the trace starts with the existence checks, the removal, and only
then the network request. -/
theorem C3_force_removes_before_download (w : World) (c : Config)
    (hp : w.pathExists = true) (hv : w.versionDirExists = true)
    (hf : c.force = true) (hni : w.interrupt = none) :
    ∃ rest, (runMain w c).trace =
      [Event.checkPathExists c.path, Event.chdir c.path,
       Event.checkDirExists (version_dir c.version),
       Event.printMsg ("Removing old download " ++ version_dir c.version),
       Event.rmtree (version_dir c.version),
       Event.printMsg ("Downloading " ++ url c.version),
       Event.download (url c.version) (filename c.version)] ++ rest := by
  have hmain : runMain w c =
      downloadPhase w c { initFS w with versionDirPresent := false }
        [Event.checkPathExists c.path, Event.chdir c.path,
         Event.checkDirExists (version_dir c.version),
         Event.printMsg ("Removing old download " ++ version_dir c.version),
         Event.rmtree (version_dir c.version)] := by
    simp [runMain, chdirPhase, checkPhase, initFS, hp, hv, hf, hni]
  obtain ⟨s, hs⟩ := downloadPhase_trace w c { initFS w with versionDirPresent := false }
    [Event.checkPathExists c.path, Event.chdir c.path,
     Event.checkDirExists (version_dir c.version),
     Event.printMsg ("Removing old download " ++ version_dir c.version),
     Event.rmtree (version_dir c.version)]
  refine ⟨s, ?_⟩
  rw [hmain, hs]
  simp

/-- Witness for C3 at a concrete world and configuration. -/
theorem C3_force_removes_before_download_witness :
    ∃ rest, (runMain ⟨true, true, true, false, true, true, [], none⟩
        ⟨"./backwards", true, "7.10.0"⟩).trace =
      [Event.checkPathExists "./backwards", Event.chdir "./backwards",
       Event.checkDirExists (version_dir "7.10.0"),
       Event.printMsg ("Removing old download " ++ version_dir "7.10.0"),
       Event.rmtree (version_dir "7.10.0"),
       Event.printMsg ("Downloading " ++ url "7.10.0"),
       Event.download (url "7.10.0") (filename "7.10.0")] ++ rest :=
  C3_force_removes_before_download _ _ rfl rfl rfl rfl

/-- Claim C4: when the target path does not exist (and its parent does, so
`os.mkdir` succeeds), the run creates the path before any download is
attempted, and the path is present from then on. -/
theorem C4_creates_path_before_download (w : World) (c : Config)
    (hp : w.pathExists = false) (hpar : w.parentExists = true)
    (hni : w.interrupt = none) :
    (∃ rest, (runMain w c).trace =
      [Event.checkPathExists c.path,
       Event.printMsg ("Creating " ++ c.path), Event.mkdir c.path,
       Event.chdir c.path,
       Event.checkDirExists (version_dir c.version),
       Event.printMsg ("Downloading " ++ url c.version),
       Event.download (url c.version) (filename c.version)] ++ rest) ∧
    (runMain w c).fs.pathPresent = true := by
  have hmain : runMain w c =
      downloadPhase w c { initFS w with pathPresent := true }
        [Event.checkPathExists c.path,
         Event.printMsg ("Creating " ++ c.path), Event.mkdir c.path,
         Event.chdir c.path,
         Event.checkDirExists (version_dir c.version)] := by
    simp [runMain, chdirPhase, checkPhase, initFS, hp, hpar, hni]
  constructor
  · obtain ⟨s, hs⟩ := downloadPhase_trace w c { initFS w with pathPresent := true }
      [Event.checkPathExists c.path,
       Event.printMsg ("Creating " ++ c.path), Event.mkdir c.path,
       Event.chdir c.path,
       Event.checkDirExists (version_dir c.version)]
    refine ⟨s, ?_⟩
    rw [hmain, hs]
    simp
  · rw [hmain, downloadPhase_pathPresent]

/-- Witness for C4 at a concrete world and configuration. -/
theorem C4_creates_path_before_download_witness :
    (∃ rest, (runMain ⟨false, true, false, false, true, true, [], none⟩
        ⟨"./bwc", false, "1.2.3"⟩).trace =
      [Event.checkPathExists "./bwc",
       Event.printMsg ("Creating " ++ "./bwc"), Event.mkdir "./bwc",
       Event.chdir "./bwc",
       Event.checkDirExists (version_dir "1.2.3"),
       Event.printMsg ("Downloading " ++ url "1.2.3"),
       Event.download (url "1.2.3") (filename "1.2.3")] ++ rest) ∧
    (runMain ⟨false, true, false, false, true, true, [], none⟩
        ⟨"./bwc", false, "1.2.3"⟩).fs.pathPresent = true :=
  C4_creates_path_before_download _ _ rfl rfl rfl

/-- Claim C2, counterexample to the claim as stated: a run in which the
download and the extraction both succeed, yet afterwards no directory
`elasticsearch-7.10.0` is present, because `extractall` simply unpacks
whatever top-level entries the archive holds (here `kibana-7.10.0`) and the
script never checks.  The archive file is still absent, and the run reports
success. -/
theorem C2_counterexample :
    (runMain ⟨true, true, false, false, true, true, ["kibana-7.10.0"], none⟩
        ⟨"./backwards", false, "7.10.0"⟩).result = Except.ok () ∧
    (runMain ⟨true, true, false, false, true, true, ["kibana-7.10.0"], none⟩
        ⟨"./backwards", false, "7.10.0"⟩).fs.archive = none ∧
    (runMain ⟨true, true, false, false, true, true, ["kibana-7.10.0"], none⟩
        ⟨"./backwards", false, "7.10.0"⟩).fs.versionDirPresent = false := by
  refine ⟨rfl, rfl, by decide⟩

/-- Claim C2 (amended): for every run in which the download and the
extraction both succeed (the target path is reachable and any pre-existing
versioned directory is force-removed), afterwards the archive file is absent
from disk, the run reports success, and the directory `elasticsearch-V` is
present exactly when the archive's top-level entries include it. -/
theorem C2_success_cleanup (w : World) (c : Config)
    (hni : w.interrupt = none) (hdl : w.downloadOk = true) (hex : w.extractOk = true)
    (hreach : w.pathExists = true ∨ w.parentExists = true)
    (hforce : (w.pathExists && w.versionDirExists) = true → c.force = true) :
    (runMain w c).result = Except.ok () ∧
    (runMain w c).fs.archive = none ∧
    (runMain w c).fs.versionDirPresent = w.zipDirs.contains (version_dir c.version) := by
  cases hp : w.pathExists with
  | false =>
      have hpar : w.parentExists = true := by
        rcases hreach with h | h
        · rw [hp] at h; exact absurd h (by simp)
        · exact h
      simp [runMain, chdirPhase, checkPhase, downloadPhase, extractPhase, cleanupPhase,
        initFS, hp, hpar, hni, hdl, hex]
  | true =>
      cases hv : w.versionDirExists with
      | false =>
          simp [runMain, chdirPhase, checkPhase, downloadPhase, extractPhase, cleanupPhase,
            initFS, hp, hv, hni, hdl, hex]
      | true =>
          have hf : c.force = true := hforce (by simp [hp, hv])
          simp [runMain, chdirPhase, checkPhase, downloadPhase, extractPhase, cleanupPhase,
            initFS, hp, hv, hf, hni, hdl, hex]

/-- Witness for the amended C2 at a concrete world and configuration. -/
theorem C2_success_cleanup_witness :
    (runMain ⟨true, true, false, false, true, true, ["elasticsearch-7.10.0"], none⟩
        ⟨"./backwards", false, "7.10.0"⟩).result = Except.ok () ∧
    (runMain ⟨true, true, false, false, true, true, ["elasticsearch-7.10.0"], none⟩
        ⟨"./backwards", false, "7.10.0"⟩).fs.archive = none ∧
    (runMain ⟨true, true, false, false, true, true, ["elasticsearch-7.10.0"], none⟩
        ⟨"./backwards", false, "7.10.0"⟩).fs.versionDirPresent =
      List.contains ["elasticsearch-7.10.0"] (version_dir "7.10.0") := by
  exact C2_success_cleanup ⟨true, true, false, false, true, true, ["elasticsearch-7.10.0"], none⟩
    ⟨"./backwards", false, "7.10.0"⟩ rfl rfl rfl (Or.inl rfl)
    (fun h => absurd h (by decide))

/-- Claim C5: the download URL is the fixed base followed by the versioned
archive name, deterministically built from the version string; the retrieved
file has that same name; the network request with exactly this URL and
destination appears in the trace; and the retrieval overwrites any
same-named pre-existing file (afterwards the archive on disk is the freshly
downloaded one, whatever `archivePreExists` said). -/
theorem C5_url_and_overwrite (w : World) (c : Config)
    (hni : w.interrupt = none) (hp : w.pathExists = true)
    (hv : w.versionDirExists = false) :
    url c.version =
      ("https://download.elasticsearch.org/elasticsearch/elasticsearch/elasticsearch-"
        ++ c.version) ++ ".zip" ∧
    filename c.version = ("elasticsearch-" ++ c.version) ++ ".zip" ∧
    Event.download (url c.version) (filename c.version) ∈ (runMain w c).trace ∧
    (w.downloadOk = true → w.extractOk = false →
      (runMain w c).fs.archive = some FileVer.fresh) := by
  have hmain : runMain w c =
      downloadPhase w c (initFS w)
        [Event.checkPathExists c.path, Event.chdir c.path,
         Event.checkDirExists (version_dir c.version)] := by
    simp [runMain, chdirPhase, checkPhase, initFS, hp, hv, hni]
  refine ⟨?_, rfl, ?_, ?_⟩
  · simp [url, base_url, filename, version_dir, ← String.append_assoc]
  · obtain ⟨s, hs⟩ := downloadPhase_trace w c (initFS w)
      [Event.checkPathExists c.path, Event.chdir c.path,
       Event.checkDirExists (version_dir c.version)]
    rw [hmain, hs]
    simp
  · intro hdl hex
    rw [hmain]
    simp [downloadPhase, extractPhase, hni, hdl, hex]

/-- Witness for C5 at a concrete world (with a stale same-named archive on
disk) and configuration. -/
theorem C5_url_and_overwrite_witness :
    url "0.90.0" =
      ("https://download.elasticsearch.org/elasticsearch/elasticsearch/elasticsearch-"
        ++ "0.90.0") ++ ".zip" ∧
    filename "0.90.0" = ("elasticsearch-" ++ "0.90.0") ++ ".zip" ∧
    Event.download (url "0.90.0") (filename "0.90.0") ∈
      (runMain ⟨true, true, false, true, true, false, [], none⟩
        ⟨"./backwards", false, "0.90.0"⟩).trace ∧
    (runMain ⟨true, true, false, true, true, false, [], none⟩
        ⟨"./backwards", false, "0.90.0"⟩).fs.archive = some FileVer.fresh := by
  have h := C5_url_and_overwrite ⟨true, true, false, true, true, false, [], none⟩
    ⟨"./backwards", false, "0.90.0"⟩ rfl rfl rfl
  exact ⟨h.1, h.2.1, h.2.2.1, h.2.2.2 rfl rfl⟩

/-- Claim C6: the only deliberately handled error is a `KeyboardInterrupt`,
converted into the clean `Ctrl-C caught, exiting` message with no traceback
and a zero exit status; every other fault escapes `main` unhandled and
terminates the process with a visible traceback and a non-zero status. -/
theorem C6_only_interrupt_handled (w : World) (c : Config) :
    ((runMain w c).result = Except.error Err.interrupt →
      (scriptEntry w c).exitCode = 0 ∧
      (scriptEntry w c).tracebackShown = false ∧
      (scriptEntry w c).trace =
        (runMain w c).trace ++ [Event.printMsg "Ctrl-C caught, exiting"]) ∧
    (∀ e, e ≠ Err.interrupt → (runMain w c).result = Except.error e →
      (scriptEntry w c).exitCode = 1 ∧ (scriptEntry w c).tracebackShown = true) := by
  constructor
  · intro h
    simp [scriptEntry, h]
  · intro e he h
    cases e with
    | interrupt => exact absurd rfl he
    | oserror => simp [scriptEntry, h]
    | networkError => simp [scriptEntry, h]
    | badZipFile => simp [scriptEntry, h]

/-- Witness for C6: a failed download (network error) escapes with a
traceback and exit status 1. -/
theorem C6_only_interrupt_handled_witness :
    (scriptEntry ⟨true, true, false, false, false, true, [], none⟩
        ⟨"./backwards", false, "7.10.0"⟩).exitCode = 1 ∧
    (scriptEntry ⟨true, true, false, false, false, true, [], none⟩
        ⟨"./backwards", false, "7.10.0"⟩).tracebackShown = true :=
  (C6_only_interrupt_handled ⟨true, true, false, false, false, true, [], none⟩
      ⟨"./backwards", false, "7.10.0"⟩).2
    Err.networkError (by decide) rfl

/-- Claim C8: the archive is deleted only on the success path, after
extraction completes; membership of the removal in the trace forces a
successful extraction, the full success trace ends with extract-then-remove,
and when extraction fails the freshly downloaded archive is left on disk
with no compensating cleanup. -/
theorem C8_cleanup_only_after_extraction (w : World) (c : Config)
    (hni : w.interrupt = none) (hp : w.pathExists = true)
    (hv : w.versionDirExists = false) (hdl : w.downloadOk = true) :
    (Event.removeFile (filename c.version) ∈ (runMain w c).trace →
      w.extractOk = true) ∧
    (w.extractOk = false →
      (runMain w c).result = Except.error Err.badZipFile ∧
      (runMain w c).fs.archive = some FileVer.fresh ∧
      Event.removeFile (filename c.version) ∉ (runMain w c).trace) ∧
    (w.extractOk = true →
      (runMain w c).trace =
        [Event.checkPathExists c.path, Event.chdir c.path,
         Event.checkDirExists (version_dir c.version),
         Event.printMsg ("Downloading " ++ url c.version),
         Event.download (url c.version) (filename c.version),
         Event.printMsg ("Extracting to " ++ version_dir c.version),
         Event.extract (filename c.version),
         Event.printMsg ("Cleaning up " ++ filename c.version),
         Event.removeFile (filename c.version)] ∧
      (runMain w c).fs.archive = none) := by
  cases hex : w.extractOk with
  | true =>
      refine ⟨fun _ => rfl, fun h => absurd h (by decide), fun _ => ⟨?_, ?_⟩⟩
      · simp [runMain, chdirPhase, checkPhase, downloadPhase, extractPhase, cleanupPhase,
          initFS, hp, hv, hni, hdl, hex]
      · simp [runMain, chdirPhase, checkPhase, downloadPhase, extractPhase, cleanupPhase,
          initFS, hp, hv, hni, hdl, hex]
  | false =>
      refine ⟨fun hmem => ?_, fun _ => ⟨?_, ?_, ?_⟩, fun h => absurd h (by decide)⟩
      · exfalso
        simp [runMain, chdirPhase, checkPhase, downloadPhase, extractPhase, cleanupPhase,
          initFS, hp, hv, hni, hdl, hex] at hmem
      · simp [runMain, chdirPhase, checkPhase, downloadPhase, extractPhase, cleanupPhase,
          initFS, hp, hv, hni, hdl, hex]
      · simp [runMain, chdirPhase, checkPhase, downloadPhase, extractPhase, cleanupPhase,
          initFS, hp, hv, hni, hdl, hex]
      · simp [runMain, chdirPhase, checkPhase, downloadPhase, extractPhase, cleanupPhase,
          initFS, hp, hv, hni, hdl, hex]

/-- Witness for C8: with a corrupt archive the run fails with `BadZipFile`,
the downloaded archive stays on disk, and no removal happens. -/
theorem C8_cleanup_only_after_extraction_witness :
    (runMain ⟨true, true, false, false, true, false, [], none⟩
        ⟨"./backwards", false, "7.10.0"⟩).result = Except.error Err.badZipFile ∧
    (runMain ⟨true, true, false, false, true, false, [], none⟩
        ⟨"./backwards", false, "7.10.0"⟩).fs.archive = some FileVer.fresh ∧
    Event.removeFile (filename "7.10.0") ∉
      (runMain ⟨true, true, false, false, true, false, [], none⟩
        ⟨"./backwards", false, "7.10.0"⟩).trace :=
  (C8_cleanup_only_after_extraction ⟨true, true, false, false, true, false, [], none⟩
      ⟨"./backwards", false, "7.10.0"⟩ rfl rfl rfl rfl).2.1 rfl

/-- Claim C9: when the parent of the target path is itself missing, the
`os.mkdir` call raises an `OSError` (it creates a single directory level
only), the path is not created, and no network call is ever made. -/
theorem C9_mkdir_parent_missing (w : World) (c : Config)
    (hp : w.pathExists = false) (hpar : w.parentExists = false)
    (hni : w.interrupt = none) :
    (runMain w c).result = Except.error Err.oserror ∧
    (runMain w c).fs.pathPresent = false ∧
    ((runMain w c).trace.filter (fun e => e.isNetwork)) = [] := by
  refine ⟨?_, ?_, ?_⟩ <;>
    simp [runMain, initFS, hp, hpar, hni, Event.isNetwork]

/-- Witness for C9 at a concrete world and configuration. -/
theorem C9_mkdir_parent_missing_witness :
    (runMain ⟨false, false, false, false, true, true, [], none⟩
        ⟨"./a/b", false, "7.10.0"⟩).result = Except.error Err.oserror ∧
    (runMain ⟨false, false, false, false, true, true, [], none⟩
        ⟨"./a/b", false, "7.10.0"⟩).fs.pathPresent = false ∧
    ((runMain ⟨false, false, false, false, true, true, [], none⟩
        ⟨"./a/b", false, "7.10.0"⟩).trace.filter (fun e => e.isNetwork)) = [] :=
  C9_mkdir_parent_missing ⟨false, false, false, false, true, true, [], none⟩
    ⟨"./a/b", false, "7.10.0"⟩ rfl rfl rfl

/-- Claim C10: a `KeyboardInterrupt` delivered at any point makes the
process print the message and exit with status 0 — the same status as a
normal completion — even when the run was left incomplete. -/
theorem C10_interrupt_exit_status (w : World) (c : Config)
    (h : (runMain w c).result = Except.error Err.interrupt ∨
         (runMain w c).result = Except.ok ()) :
    (scriptEntry w c).exitCode = 0 ∧
    ((runMain w c).result = Except.error Err.interrupt →
      (scriptEntry w c).tracebackShown = false ∧
      (scriptEntry w c).trace =
        (runMain w c).trace ++ [Event.printMsg "Ctrl-C caught, exiting"]) := by
  rcases h with h | h <;> simp [scriptEntry, h]

/-- Witness for C10: an interrupt delivered during extraction (the download
already on disk, the extraction incomplete) still exits with status 0 and
the clean message. -/
theorem C10_interrupt_exit_status_witness :
    (scriptEntry ⟨true, true, false, false, true, true, [], some Step.extractStep⟩
        ⟨"./backwards", false, "7.10.0"⟩).exitCode = 0 ∧
    (scriptEntry ⟨true, true, false, false, true, true, [], some Step.extractStep⟩
        ⟨"./backwards", false, "7.10.0"⟩).tracebackShown = false ∧
    (scriptEntry ⟨true, true, false, false, true, true, [], some Step.extractStep⟩
        ⟨"./backwards", false, "7.10.0"⟩).trace =
      (runMain ⟨true, true, false, false, true, true, [], some Step.extractStep⟩
        ⟨"./backwards", false, "7.10.0"⟩).trace ++
          [Event.printMsg "Ctrl-C caught, exiting"] ∧
    (runMain ⟨true, true, false, false, true, true, [], some Step.extractStep⟩
        ⟨"./backwards", false, "7.10.0"⟩).fs.archive = some FileVer.fresh := by
  have h := C10_interrupt_exit_status
    ⟨true, true, false, false, true, true, [], some Step.extractStep⟩
    ⟨"./backwards", false, "7.10.0"⟩ (Or.inl rfl)
  exact ⟨h.1, (h.2 rfl).1, (h.2 rfl).2, rfl⟩

/-- Helper: `--force` sets the force flag and consumes no value. -/
theorem parseArgs_force (rest : List String) (path : String) (force : Bool)
    (v : Option String) :
    parseArgs ("--force" :: rest) path force v = parseArgs rest path true v := by
  rw [parseArgs.eq_def]
  simp

/-- Helper: `--path` consumes the next token as the target directory. -/
theorem parseArgs_path (d : String) (rest : List String) (path : String)
    (force : Bool) (v : Option String) :
    parseArgs ("--path" :: d :: rest) path force v = parseArgs rest d force v := by
  rw [parseArgs.eq_def]
  simp

/-- Helper: a token that does not look like an option is taken as the
positional `version` argument when none has been seen yet. -/
theorem parseArgs_positional (a : String) (rest : List String) (path : String)
    (force : Bool) (h : dashLeading a = false) :
    parseArgs (a :: rest) path force none = parseArgs rest path force (some a) := by
  have h1 : ¬ a = "--force" := by rintro rfl; exact absurd h (by decide)
  have h2 : ¬ a = "--path" := by rintro rfl; exact absurd h (by decide)
  rw [parseArgs.eq_def]
  simp [h1, h2, h]

/-- Claim C7: the parser defaults `--path` to `./backwards` and `--force` to
false; the positional `version` is required, and omitting it (with or
without the optional flags) is a usage error; any version string that does
not look like an option is accepted as-is, with no format validation beyond
presence. -/
theorem C7_parse_config (d v : String) (_hd : dashLeading d = false)
    (hv : dashLeading v = false) :
    parse_config [] = Except.error "the following arguments are required: version" ∧
    parse_config ["--force"] =
      Except.error "the following arguments are required: version" ∧
    parse_config ["--path", d] =
      Except.error "the following arguments are required: version" ∧
    parse_config [v] = Except.ok ⟨"./backwards", false, v⟩ ∧
    parse_config ["--path", d, "--force", v] = Except.ok ⟨d, true, v⟩ ∧
    parse_config ["--force", "--path", d, v] = Except.ok ⟨d, true, v⟩ := by
  refine ⟨?_, ?_, ?_, ?_, ?_, ?_⟩
  · show parseArgs [] "./backwards" false none = _
    rw [parseArgs.eq_def]
  · show parseArgs ["--force"] "./backwards" false none = _
    rw [parseArgs_force, parseArgs.eq_def]
  · show parseArgs ["--path", d] "./backwards" false none = _
    rw [parseArgs_path, parseArgs.eq_def]
  · show parseArgs [v] "./backwards" false none = _
    rw [parseArgs_positional v [] "./backwards" false hv, parseArgs.eq_def]
  · show parseArgs ["--path", d, "--force", v] "./backwards" false none = _
    rw [parseArgs_path, parseArgs_force, parseArgs_positional v [] d true hv,
      parseArgs.eq_def]
  · show parseArgs ["--force", "--path", d, v] "./backwards" false none = _
    rw [parseArgs_force, parseArgs_path, parseArgs_positional v [] d true hv,
      parseArgs.eq_def]

/-- Witness for C7 at concrete arguments, including a malformed version
string that is still accepted. -/
theorem C7_parse_config_witness :
    parse_config [] = Except.error "the following arguments are required: version" ∧
    parse_config ["--force"] =
      Except.error "the following arguments are required: version" ∧
    parse_config ["--path", "./bwc"] =
      Except.error "the following arguments are required: version" ∧
    parse_config ["not.a.version"] = Except.ok ⟨"./backwards", false, "not.a.version"⟩ ∧
    parse_config ["--path", "./bwc", "--force", "not.a.version"] =
      Except.ok ⟨"./bwc", true, "not.a.version"⟩ ∧
    parse_config ["--force", "--path", "./bwc", "not.a.version"] =
      Except.ok ⟨"./bwc", true, "not.a.version"⟩ :=
  C7_parse_config "./bwc" "not.a.version" rfl rfl

end GetBwc
